import Mathlib

/-!
Shallow embedding of the TaskFlow core (Task entity, in-memory task store,
task service) from the TypeScript sources:

* `models/Task.ts` — the `Task` class, its constructor, `update`,
  `markAsDone/InProgress/Pending`, `toJSON`, `fromJSON`;
* `repositories/InMemoryTaskRepository.ts` — a `Map<string, Task>` keyed by id,
  modelled as a list of tasks in insertion order (the iteration order of a
  JavaScript `Map`);
* `services/TaskService.ts` — validation, error codes, and statistics.

Modelling conventions:
* timestamps (`new Date()`) are natural numbers; every operation that stamps a
  time takes the current clock value `now` as an explicit argument;
* generated uuids are explicit `freshId` arguments;
* optional DTO fields are `Option String`; JavaScript truthiness of a string
  (`""` and `undefined` are falsy) is `jsTruthy`;
* task statuses are plain strings, as the service's own `isValidStatus`
  runtime check treats them: the HTTP controller forwards `req.body` fields
  unchecked, so any string can reach the service;
* a thrown `TaskError` is `Except.error` carrying the error `code`.
-/

namespace TaskFlow

/-- The status strings of the `TaskStatus` enum, in declaration order
(`Object.values(TaskStatus)`). -/
def statusValues : List String := ["pending", "in_progress", "done"]

/-- Source `TaskService.isValidStatus`: membership in `Object.values(TaskStatus)`. -/
def isValidStatus (s : String) : Bool := statusValues.contains s

/-- JavaScript `String.prototype.trim`: drop leading and trailing whitespace
(the repository's strings only ever contain ASCII whitespace, where the
JavaScript and Lean whitespace classes agree). -/
def jsTrim (s : String) : String :=
  String.mk (((s.data.dropWhile Char.isWhitespace).reverse.dropWhile Char.isWhitespace).reverse)

/-- JavaScript truthiness of an optional string field: `undefined` and the
empty string are falsy, every other string is truthy. -/
def jsTruthy : Option String → Bool
  | none => false
  | some s => !(s == "")

/-- JavaScript `a || b` on an optional string `a`: returns `b` when `a` is
`undefined` or `""`, else the string itself. -/
def jsOrElse : Option String → String → String
  | none, b => b
  | some s, b => if s = "" then b else s

/-- Source `CreateTaskDTO`: the creation payload as it arrives at runtime (any field
may be absent, since the controller forwards the request body unchecked). -/
structure CreateTaskDTO where
  title : Option String
  description : Option String
  status : Option String
deriving DecidableEq, Repr

/-- Source `UpdateTaskDTO`: the partial-update payload. -/
structure UpdateTaskDTO where
  title : Option String
  description : Option String
  status : Option String
deriving DecidableEq, Repr

/-- The `Task` entity: `id`, `title`, `description`, `status`, `createdAt`,
`updatedAt`. -/
structure Task where
  id : String
  title : String
  description : String
  status : String
  createdAt : Nat
  updatedAt : Nat
deriving DecidableEq, Repr

/-- The `Task` constructor: fresh uuid, `status = data.status || PENDING`,
`createdAt = updatedAt = now`.  The service validates presence of `title` and
`description` before any constructor call, so the `getD ""` defaults for
absent fields are never exercised on the modelled paths. -/
def Task.create (freshId : String) (now : Nat) (data : CreateTaskDTO) : Task :=
  { id := freshId
    title := data.title.getD ""
    description := data.description.getD ""
    status := jsOrElse data.status "pending"
    createdAt := now
    updatedAt := now }

/-- Source `Task.update`: each field present in the partial (`!== undefined`,
including the empty string) overwrites the current value; `updatedAt` is
always restamped to the current time. -/
def Task.update (t : Task) (data : UpdateTaskDTO) (now : Nat) : Task :=
  { t with
    title := data.title.getD t.title
    description := data.description.getD t.description
    status := data.status.getD t.status
    updatedAt := now }

/-- Source `Task.toJSON`: the plain projection of all six fields. -/
def Task.toJSON (t : Task) : Task :=
  { id := t.id
    title := t.title
    description := t.description
    status := t.status
    createdAt := t.createdAt
    updatedAt := t.updatedAt }

/-- Source `Task.fromJSON`: constructs a fresh `Task` from the serialized `title`,
`description` and `status` (so the constructor's `data.status || PENDING`
defaulting applies), then overwrites the readonly `id`, `createdAt` and
`updatedAt` with the serialized values via `Object.assign`. -/
def Task.fromJSON (freshId : String) (now : Nat) (data : Task) : Task :=
  { Task.create freshId now
      { title := some data.title
        description := some data.description
        status := some data.status } with
    id := data.id
    createdAt := data.createdAt
    updatedAt := data.updatedAt }

/-- The in-memory store: the values of the backing `Map<string, Task>` in
insertion order. -/
abbrev Store := List Task

/-- Source `InMemoryTaskRepository.findById`: `map.get(id) || null`. -/
def findById (ts : Store) (id : String) : Option Task :=
  ts.find? (fun t => t.id = id)

/-- Source `InMemoryTaskRepository.findByStatus`: filter `findAll()` by status. -/
def findByStatus (ts : Store) (s : String) : List Task :=
  ts.filter (fun t => t.status = s)

/-- Source `InMemoryTaskRepository.create`: construct a `Task` and `map.set` it under
its (fresh) id.  `Map.set` overwrites in place when the key exists and appends
in insertion order otherwise. -/
def repoCreate (freshId : String) (now : Nat) (data : CreateTaskDTO) (ts : Store) :
    Task × Store :=
  let t := Task.create freshId now data
  (t,
    if ts.any (fun u => u.id = t.id) then ts.map (fun u => if u.id = t.id then t else u)
    else ts ++ [t])

/-- Source `InMemoryTaskRepository.update`: look the task up; return `null` leaving
the store unchanged when absent, else apply `Task.update` and re-`set` it
under the same key. -/
def repoUpdate (ts : Store) (id : String) (data : UpdateTaskDTO) (now : Nat) :
    Option Task × Store :=
  match findById ts id with
  | none => (none, ts)
  | some task =>
    let t := task.update data now
    (some t, ts.map (fun u => if u.id = id then t else u))

/-- Source `InMemoryTaskRepository.delete`: report whether the id existed and remove
its entry. -/
def repoDelete (ts : Store) (id : String) : Bool × Store :=
  if ts.any (fun u => u.id = id) then (true, ts.filter (fun u => !(u.id = id)))
  else (false, ts)

/-- Source `InMemoryTaskRepository.count`: `map.size`. -/
def count (ts : Store) : Nat := ts.length

/-- Source `InMemoryTaskRepository.countByStatus`: length of `findByStatus`. -/
def countByStatus (ts : Store) (s : String) : Nat := (findByStatus ts s).length

/-- The `code` field of a thrown `TaskError`. -/
inductive TaskErrorCode where
  | INVALID_TITLE
  | TITLE_TOO_LONG
  | INVALID_DESCRIPTION
  | DESCRIPTION_TOO_LONG
  | INVALID_STATUS
  | INVALID_ID
  | TASK_NOT_FOUND
deriving DecidableEq, Repr

/-- Source `TaskService.validateCreateData`, check for check:
`!title || title.trim().length === 0`, `title.length > 200`, the same for
`description` with bound 2000, then `status && !isValidStatus(status)`. -/
def validateCreateData (d : CreateTaskDTO) : Option TaskErrorCode :=
  if !(jsTruthy d.title) || (jsTrim (d.title.getD "")).length = 0 then
    some .INVALID_TITLE
  else if (d.title.getD "").length > 200 then
    some .TITLE_TOO_LONG
  else if !(jsTruthy d.description) || (jsTrim (d.description.getD "")).length = 0 then
    some .INVALID_DESCRIPTION
  else if (d.description.getD "").length > 2000 then
    some .DESCRIPTION_TOO_LONG
  else if jsTruthy d.status && !(isValidStatus (d.status.getD "")) then
    some .INVALID_STATUS
  else
    none

/-- Source `TaskService.validateUpdateData`: the emptiness checks fire on any present
field (`!== undefined`), the length checks and the status check only on truthy
values (`data.title && ...`, `data.status && ...`). -/
def validateUpdateData (d : UpdateTaskDTO) : Option TaskErrorCode :=
  if d.title.isSome && (jsTrim (d.title.getD "")).length = 0 then
    some .INVALID_TITLE
  else if jsTruthy d.title && (d.title.getD "").length > 200 then
    some .TITLE_TOO_LONG
  else if d.description.isSome && (jsTrim (d.description.getD "")).length = 0 then
    some .INVALID_DESCRIPTION
  else if jsTruthy d.description && (d.description.getD "").length > 2000 then
    some .DESCRIPTION_TOO_LONG
  else if jsTruthy d.status && !(isValidStatus (d.status.getD "")) then
    some .INVALID_STATUS
  else
    none

/-- Source `TaskService.validateId`: `!id || id.trim().length === 0`. -/
def validateId (id : String) : Option TaskErrorCode :=
  if id = "" || (jsTrim id).length = 0 then some .INVALID_ID else none

/-- Source `TaskService.createTask`: validate, then delegate to the store. -/
def createTask (freshId : String) (now : Nat) (d : CreateTaskDTO) (ts : Store) :
    Except TaskErrorCode (Task × Store) :=
  match validateCreateData d with
  | some e => .error e
  | none => .ok (repoCreate freshId now d ts)

/-- Source `TaskService.getTaskById`: validate the id, then turn the store's `null`
into `TASK_NOT_FOUND`. -/
def getTaskById (ts : Store) (id : String) : Except TaskErrorCode Task :=
  match validateId id with
  | some e => .error e
  | none =>
    match findById ts id with
    | none => .error .TASK_NOT_FOUND
    | some t => .ok t

/-- Source `TaskService.updateTask`: validate the id and the partial, then turn the
store's `null` into `TASK_NOT_FOUND`. -/
def updateTask (ts : Store) (id : String) (d : UpdateTaskDTO) (now : Nat) :
    Except TaskErrorCode (Task × Store) :=
  match validateId id with
  | some e => .error e
  | none =>
    match validateUpdateData d with
    | some e => .error e
    | none =>
      match repoUpdate ts id d now with
      | (none, _) => .error .TASK_NOT_FOUND
      | (some t, ts2) => .ok (t, ts2)

/-- Source `TaskService.deleteTask`: validate the id, then turn the store's `false`
into `TASK_NOT_FOUND`. -/
def deleteTask (ts : Store) (id : String) : Except TaskErrorCode Store :=
  match validateId id with
  | some e => .error e
  | none =>
    match repoDelete ts id with
    | (false, _) => .error .TASK_NOT_FOUND
    | (true, ts2) => .ok ts2

/-- Source `TaskService.markTaskAsDone`: `updateTask(id, { status: DONE })`. -/
def markTaskAsDone (ts : Store) (id : String) (now : Nat) :
    Except TaskErrorCode (Task × Store) :=
  updateTask ts id { title := none, description := none, status := some "done" } now

/-- Source `TaskService.markTaskAsInProgress`: `updateTask(id, { status: IN_PROGRESS })`. -/
def markTaskAsInProgress (ts : Store) (id : String) (now : Nat) :
    Except TaskErrorCode (Task × Store) :=
  updateTask ts id { title := none, description := none, status := some "in_progress" } now

/-- Source `TaskService.markTaskAsPending`: `updateTask(id, { status: PENDING })`. -/
def markTaskAsPending (ts : Store) (id : String) (now : Nat) :
    Except TaskErrorCode (Task × Store) :=
  updateTask ts id { title := none, description := none, status := some "pending" } now

/-- The `TaskStatistics` result record.  `completionRate` is a rational: the
source computes it in JavaScript number arithmetic, modelled exactly over `ℚ`
(all values the claims touch are exactly representable doubles). -/
structure TaskStatistics where
  total : Nat
  pending : Nat
  inProgress : Nat
  done : Nat
  completionRate : ℚ
deriving DecidableEq, Repr

/-- JavaScript `Math.round`: round half towards positive infinity,
`⌊x + 1/2⌋`. -/
def mathRound (q : ℚ) : ℤ := ⌊q + 1 / 2⌋

/-- Source `TaskService.getStatistics`:
`completionRate = total > 0 ? done / total * 100 : 0`, then
`Math.round(completionRate * 100) / 100`. -/
def getStatistics (ts : Store) : TaskStatistics :=
  let total := count ts
  let pending := countByStatus ts "pending"
  let inProgress := countByStatus ts "in_progress"
  let d := countByStatus ts "done"
  let completionRate : ℚ := if total > 0 then ((d : ℚ) / (total : ℚ)) * 100 else 0
  { total := total
    pending := pending
    inProgress := inProgress
    done := d
    completionRate := (mathRound (completionRate * 100) : ℚ) / 100 }

/-- A `TaskService` operation together with the inputs the environment supplies
to it (the generated uuid and the clock reading). -/
inductive Op where
  | create (freshId : String) (now : Nat) (d : CreateTaskDTO)
  | update (id : String) (d : UpdateTaskDTO) (now : Nat)
  | markDone (id : String) (now : Nat)
  | markInProgress (id : String) (now : Nat)
  | markPending (id : String) (now : Nat)
deriving DecidableEq, Repr

/-- Effect of one service call on the store; a thrown `TaskError` leaves the
store unchanged (every validation failure happens before the store is
touched, and a not-found update leaves the map as it was). -/
def stepStore (ts : Store) : Op → Store
  | .create freshId now d =>
    match createTask freshId now d ts with
    | .ok (_, ts2) => ts2
    | .error _ => ts
  | .update id d now =>
    match updateTask ts id d now with
    | .ok (_, ts2) => ts2
    | .error _ => ts
  | .markDone id now =>
    match markTaskAsDone ts id now with
    | .ok (_, ts2) => ts2
    | .error _ => ts
  | .markInProgress id now =>
    match markTaskAsInProgress ts id now with
    | .ok (_, ts2) => ts2
    | .error _ => ts
  | .markPending id now =>
    match markTaskAsPending ts id now with
    | .ok (_, ts2) => ts2
    | .error _ => ts

/-- The store reached by running a sequence of service calls from the empty
store (a freshly constructed `InMemoryTaskRepository`). -/
def runOps (ops : List Op) : Store := ops.foldl stepStore []

end TaskFlow

namespace TaskFlow

deriving instance DecidableEq for Except

/-- A status string passes `isValidStatus` exactly when it is one of the three
enumerated values. -/
theorem isValidStatus_iff (s : String) :
    isValidStatus s = true ↔ s = "pending" ∨ s = "in_progress" ∨ s = "done" := by
  simp [isValidStatus, statusValues, List.contains, List.any, Bool.or_eq_true, beq_iff_eq]

/-- The three enumerated status values are non-empty strings. -/
theorem isValidStatus_ne_empty {s : String} (h : isValidStatus s = true) : s ≠ "" := by
  rcases (isValidStatus_iff s).1 h with h1 | h1 | h1 <;> subst h1 <;> decide

/-- Lemma: `createTask` reports exactly the error `validateCreateData` reports. -/
theorem createTask_error_iff (freshId : String) (now : Nat) (d : CreateTaskDTO) (ts : Store)
    (e : TaskErrorCode) :
    createTask freshId now d ts = .error e ↔ validateCreateData d = some e := by
  unfold createTask
  cases h : validateCreateData d <;> simp

/-- Lemma: `createTask` delegates to the store when validation passes. -/
theorem createTask_ok (freshId : String) (now : Nat) (d : CreateTaskDTO) (ts : Store)
    (h : validateCreateData d = none) :
    createTask freshId now d ts = .ok (repoCreate freshId now d ts) := by
  unfold createTask
  rw [h]

end TaskFlow

namespace TaskFlow

/-- C1.  The claim: after any sequence of service operations starting from the
empty store, every task's status is one of the three enumerated values.  The
code violates it: `validateUpdateData` skips the status check for the falsy
empty string (`data.status && !isValidStatus(...)`), while `Task.update`
applies any present field (`!== undefined`), so `updateTask` with
`{status: ""}` stores a task whose status is none of the enumerated values —
contradicting the service's own validation table, which rejects any present
non-enumerated status with `INVALID_STATUS`.  This theorem exhibits the
failing run. -/
theorem c1_invalid_status_reachable :
    (runOps [Op.create "id1" 0 ⟨some "Buy milk", some "at the store", none⟩,
             Op.update "id1" ⟨none, none, some ""⟩ 1]).map Task.status = [""]
    ∧ isValidStatus "" = false := by decide

/-- C2, counterexample.  The claim says `updatedAt` strictly advances on every
successful update, but the code merely restamps `updatedAt := now`: when the
clock has not moved between creation (time 5) and update (time 5), the update
succeeds and `updatedAt` stays 5, not strictly greater than its prior value 5. -/
theorem c2_counterexample :
    findById (runOps [Op.create "a" 5 ⟨some "t", some "d", none⟩]) "a"
      = some ⟨"a", "t", "d", "pending", 5, 5⟩
    ∧ updateTask (runOps [Op.create "a" 5 ⟨some "t", some "d", none⟩]) "a"
        ⟨none, none, some "done"⟩ 5
      = .ok (⟨"a", "t", "d", "done", 5, 5⟩, [⟨"a", "t", "d", "done", 5, 5⟩])
    ∧ ¬ ((⟨"a", "t", "d", "done", 5, 5⟩ : Task).updatedAt
          > (⟨"a", "t", "d", "pending", 5, 5⟩ : Task).updatedAt) := by decide

/-- C2, amended.  After every successful `updateTask` call (the `markTaskAs*`
variants are such calls, and the empty partial is allowed), the task's
`updatedAt` equals the call's current time; hence it is never earlier than its
prior value when the clock is monotone, it strictly advances exactly when the
clock strictly advanced, and `updatedAt >= createdAt` is preserved. -/
theorem c2_updatedAt_monotone (ts : Store) (id : String) (d : UpdateTaskDTO) (now : Nat)
    (t t' : Task) (ts2 : Store)
    (hfind : findById ts id = some t)
    (hwf : t.createdAt ≤ t.updatedAt)
    (hclock : t.updatedAt ≤ now)
    (hok : updateTask ts id d now = .ok (t', ts2)) :
    t'.updatedAt = now ∧ t.updatedAt ≤ t'.updatedAt ∧ t'.createdAt = t.createdAt
      ∧ t'.createdAt ≤ t'.updatedAt ∧ (t.updatedAt < t'.updatedAt ↔ t.updatedAt < now) := by
  unfold updateTask repoUpdate at hok
  cases hv : validateId id <;> rw [hv] at hok
  · cases hu : validateUpdateData d <;> rw [hu] at hok
    · rw [hfind] at hok
      simp only [Except.ok.injEq, Prod.mk.injEq] at hok
      obtain ⟨h1, -⟩ := hok
      subst h1
      exact ⟨rfl, hclock, rfl, le_trans hwf hclock, Iff.rfl⟩
    · simp at hok
  · simp at hok

/-- C2, witness for the amended theorem at a concrete input. -/
theorem c2_witness :
    (⟨"a", "t", "d", "done", 3, 7⟩ : Task).updatedAt = 7
    ∧ (⟨"a", "t", "d", "pending", 3, 4⟩ : Task).updatedAt
        ≤ (⟨"a", "t", "d", "done", 3, 7⟩ : Task).updatedAt
    ∧ (⟨"a", "t", "d", "done", 3, 7⟩ : Task).createdAt
        = (⟨"a", "t", "d", "pending", 3, 4⟩ : Task).createdAt
    ∧ (⟨"a", "t", "d", "done", 3, 7⟩ : Task).createdAt
        ≤ (⟨"a", "t", "d", "done", 3, 7⟩ : Task).updatedAt
    ∧ ((⟨"a", "t", "d", "pending", 3, 4⟩ : Task).updatedAt
          < (⟨"a", "t", "d", "done", 3, 7⟩ : Task).updatedAt
        ↔ (⟨"a", "t", "d", "pending", 3, 4⟩ : Task).updatedAt < 7) :=
  c2_updatedAt_monotone [⟨"a", "t", "d", "pending", 3, 4⟩] "a" ⟨none, none, some "done"⟩ 7
    ⟨"a", "t", "d", "pending", 3, 4⟩ ⟨"a", "t", "d", "done", 3, 7⟩
    [⟨"a", "t", "d", "done", 3, 7⟩] (by decide) (by decide) (by decide) (by decide)

end TaskFlow

namespace TaskFlow

/-- C6, counterexample.  The claim quantifies over every id not present in the
store, but for the absent id `""` with the empty partial the store returns
absent while the service fails with `INVALID_ID`, not `TASK_NOT_FOUND`:
`validateId` rejects the empty id before the store is consulted. -/
theorem c6_counterexample :
    findById [] "" = none
    ∧ validateUpdateData ⟨none, none, none⟩ = none
    ∧ repoUpdate [] "" ⟨none, none, none⟩ 0 = (none, [])
    ∧ updateTask [] "" ⟨none, none, none⟩ 0 = .error .INVALID_ID
    ∧ TaskErrorCode.INVALID_ID ≠ .TASK_NOT_FOUND := by decide

/-- C6, amended.  For every id that passes the id validation (non-blank after
trimming) and is not present in the store, and every partial passing the
update validation rules — including the empty partial — the store's update
returns absent leaving the store unchanged, and the service's `updateTask`
fails with `TASK_NOT_FOUND`. -/
theorem c6_update_not_found (ts : Store) (id : String) (d : UpdateTaskDTO) (now : Nat)
    (hid : validateId id = none)
    (habs : findById ts id = none)
    (hd : validateUpdateData d = none) :
    repoUpdate ts id d now = (none, ts)
      ∧ updateTask ts id d now = .error .TASK_NOT_FOUND := by
  have h1 : repoUpdate ts id d now = (none, ts) := by
    unfold repoUpdate
    rw [habs]
  refine ⟨h1, ?_⟩
  unfold updateTask
  rw [hid, hd, h1]

/-- C6, witness for the amended theorem at a concrete input. -/
theorem c6_witness :
    repoUpdate [] "x" ⟨none, none, none⟩ 0 = (none, [])
      ∧ updateTask [] "x" ⟨none, none, none⟩ 0 = .error .TASK_NOT_FOUND :=
  c6_update_not_found [] "x" ⟨none, none, none⟩ 0 (by decide) (by decide) (by decide)

/-- C7, counterexample.  The claim quantifies over every non-empty id, but for
the non-empty blank id `" "` the store's delete returns `false` while the
service fails with `INVALID_ID`, not `TASK_NOT_FOUND`: `validateId` rejects
any id that trims to the empty string. -/
theorem c7_counterexample :
    (" " : String) ≠ ""
    ∧ repoDelete [] " " = (false, [])
    ∧ deleteTask [] " " = .error .INVALID_ID
    ∧ TaskErrorCode.INVALID_ID ≠ .TASK_NOT_FOUND := by decide

/-- C7, amended.  For every id that passes the id validation (non-blank after
trimming): the store's delete returns `true` and removes the record exactly
when a task with that id existed, `false` leaving the store unchanged
otherwise; `deleteTask` fails with `TASK_NOT_FOUND` exactly when the store
returns `false`; and after a successful `deleteTask`, `getTaskById` on the
same id fails with `TASK_NOT_FOUND`. -/
theorem c7_delete_spec (ts : Store) (id : String) (hid : validateId id = none) :
    ((repoDelete ts id).1 = true ↔ ∃ t ∈ ts, t.id = id)
      ∧ (∀ t ∈ (repoDelete ts id).2, t.id ≠ id)
      ∧ (∀ t ∈ ts, t.id ≠ id → t ∈ (repoDelete ts id).2)
      ∧ (deleteTask ts id = .error .TASK_NOT_FOUND ↔ (repoDelete ts id).1 = false)
      ∧ ((repoDelete ts id).1 = true → deleteTask ts id = .ok (repoDelete ts id).2)
      ∧ (∀ ts2, deleteTask ts id = .ok ts2 → getTaskById ts2 id = .error .TASK_NOT_FOUND) := by
  unfold deleteTask
  rw [hid]
  unfold repoDelete
  by_cases hex : ∃ t ∈ ts, t.id = id
  · have hb : (ts.any fun u => decide (u.id = id)) = true := by
      rw [List.any_eq_true]
      obtain ⟨t, ht, hi⟩ := hex
      exact ⟨t, ht, by simp [hi]⟩
    rw [if_pos hb]
    have hfn : findById (ts.filter fun u => !(decide (u.id = id))) id = none := by
      unfold findById
      rw [List.find?_eq_none]
      intro x hx
      simp only [List.mem_filter, Bool.not_eq_eq_eq_not, Bool.not_true,
        decide_eq_false_iff_not] at hx
      simp [hx.2]
    refine ⟨by simp [hex], ?_, ?_, by simp, fun _ => rfl, ?_⟩
    · intro t ht
      simp only [List.mem_filter, Bool.not_eq_eq_eq_not, Bool.not_true,
        decide_eq_false_iff_not] at ht
      exact ht.2
    · intro t ht hne
      simp [List.mem_filter, ht, hne]
    · intro ts2 h2
      simp only [Except.ok.injEq] at h2
      subst h2
      unfold getTaskById
      rw [hid, hfn]
  · have hb : (ts.any fun u => decide (u.id = id)) = false := by
      rw [List.any_eq_false]
      intro t ht
      simp only [decide_eq_true_eq]
      exact fun hi => hex ⟨t, ht, hi⟩
    rw [if_neg (by simp [hb])]
    refine ⟨by simp [hex], ?_, fun t ht _ => ht, by simp, by simp, by simp⟩
    intro t ht
    exact fun hi => hex ⟨t, ht, hi⟩

/-- C7, witness for the amended theorem at a concrete input. -/
theorem c7_witness :
    ((repoDelete [(⟨"a", "t", "d", "pending", 0, 0⟩ : Task)] "a").1 = true
        ↔ ∃ t ∈ [(⟨"a", "t", "d", "pending", 0, 0⟩ : Task)], t.id = "a")
      ∧ (∀ t ∈ (repoDelete [(⟨"a", "t", "d", "pending", 0, 0⟩ : Task)] "a").2, t.id ≠ "a")
      ∧ (∀ t ∈ [(⟨"a", "t", "d", "pending", 0, 0⟩ : Task)], t.id ≠ "a"
          → t ∈ (repoDelete [(⟨"a", "t", "d", "pending", 0, 0⟩ : Task)] "a").2)
      ∧ (deleteTask [(⟨"a", "t", "d", "pending", 0, 0⟩ : Task)] "a" = .error .TASK_NOT_FOUND
          ↔ (repoDelete [(⟨"a", "t", "d", "pending", 0, 0⟩ : Task)] "a").1 = false)
      ∧ ((repoDelete [(⟨"a", "t", "d", "pending", 0, 0⟩ : Task)] "a").1 = true
          → deleteTask [(⟨"a", "t", "d", "pending", 0, 0⟩ : Task)] "a"
              = .ok (repoDelete [(⟨"a", "t", "d", "pending", 0, 0⟩ : Task)] "a").2)
      ∧ (∀ ts2, deleteTask [(⟨"a", "t", "d", "pending", 0, 0⟩ : Task)] "a" = .ok ts2
          → getTaskById ts2 "a" = .error .TASK_NOT_FOUND) :=
  c7_delete_spec [(⟨"a", "t", "d", "pending", 0, 0⟩ : Task)] "a" (by decide)

/-- C9, counterexample.  The claim quantifies over every Task, but a task with
the empty status — reachable through the service, as this run shows — does not
round-trip: the `fromJSON` constructor path applies `data.status || PENDING`,
so the empty status deserializes to `pending`. -/
theorem c9_counterexample :
    runOps [Op.create "t1" 0 ⟨some "Comprar pao", some "na padaria", none⟩,
            Op.update "t1" ⟨none, none, some ""⟩ 2]
      = [⟨"t1", "Comprar pao", "na padaria", "", 0, 2⟩]
    ∧ Task.fromJSON "fresh" 9 (Task.toJSON ⟨"t1", "Comprar pao", "na padaria", "", 0, 2⟩)
        = ⟨"t1", "Comprar pao", "na padaria", "pending", 0, 2⟩
    ∧ (⟨"t1", "Comprar pao", "na padaria", "pending", 0, 2⟩ : Task)
        ≠ ⟨"t1", "Comprar pao", "na padaria", "", 0, 2⟩ := by decide

/-- C9, amended.  `fromJSON ∘ toJSON` preserves `id`, `title`, `description`,
`createdAt` and `updatedAt` exactly for every task (it does not regenerate or
re-stamp them), and preserves `status` exactly when the status is a non-empty
string — in particular for every task whose status is one of the three
enumerated values; an empty status deserializes to `pending`. -/
theorem c9_roundtrip (freshId : String) (now : Nat) (t : Task) :
    (Task.fromJSON freshId now (Task.toJSON t)).id = t.id
      ∧ (Task.fromJSON freshId now (Task.toJSON t)).title = t.title
      ∧ (Task.fromJSON freshId now (Task.toJSON t)).description = t.description
      ∧ (Task.fromJSON freshId now (Task.toJSON t)).createdAt = t.createdAt
      ∧ (Task.fromJSON freshId now (Task.toJSON t)).updatedAt = t.updatedAt
      ∧ (t.status ≠ "" → Task.fromJSON freshId now (Task.toJSON t) = t)
      ∧ (t.status = "" → (Task.fromJSON freshId now (Task.toJSON t)).status = "pending") := by
  cases t with
  | mk id title description status createdAt updatedAt =>
    refine ⟨rfl, rfl, rfl, rfl, rfl, ?_, ?_⟩
    · intro h
      simp [Task.fromJSON, Task.toJSON, Task.create, jsOrElse, h]
    · intro h
      subst h
      simp [Task.fromJSON, Task.toJSON, Task.create, jsOrElse]

/-- C9, witness for the amended theorem at a concrete input. -/
theorem c9_witness :
    Task.fromJSON "f" 9 (Task.toJSON ⟨"a", "b", "c", "done", 1, 2⟩)
      = ⟨"a", "b", "c", "done", 1, 2⟩ :=
  (c9_roundtrip "f" 9 ⟨"a", "b", "c", "done", 1, 2⟩).2.2.2.2.2.1 (by decide)

end TaskFlow

namespace TaskFlow

/-- The "required and non-blank" condition of `validateCreateData`
(`!field || field.trim().length === 0`), restated at claim level: the field is
missing or trims to length 0. -/
theorem missing_cond_iff (o : Option String) :
    (!(jsTruthy o) || decide ((jsTrim (o.getD "")).length = 0)) = true ↔
      (o = none ∨ (jsTrim (o.getD "")).length = 0) := by
  rcases o with _ | s
  · simp [jsTruthy]
  · by_cases he : s = ""
    · subst he
      simp [jsTruthy]
      decide
    · simp [jsTruthy, he]

/-- The status check of both validators is skipped when the status is absent,
and passes when it is a valid status value. -/
theorem status_cond_false_of (o : Option String)
    (h : o = none ∨ isValidStatus (o.getD "") = true) :
    (jsTruthy o && !(isValidStatus (o.getD ""))) = false := by
  rcases h with h | h
  · subst h; rfl
  · simp [h]

/-- Lemma: `validateCreateData` accepts any payload with a present non-blank title of
at most 200 characters, a present non-blank description of at most 2000
characters, and an absent or valid status. -/
theorem validateCreateData_none (d : CreateTaskDTO)
    (h1 : ¬(d.title = none ∨ (jsTrim (d.title.getD "")).length = 0))
    (h2 : ¬((d.title.getD "").length > 200))
    (h3 : ¬(d.description = none ∨ (jsTrim (d.description.getD "")).length = 0))
    (h4 : ¬((d.description.getD "").length > 2000))
    (h5 : d.status = none ∨ isValidStatus (d.status.getD "") = true) :
    validateCreateData d = none := by
  have c1 := (missing_cond_iff d.title).not.mpr h1
  have c3 := (missing_cond_iff d.description).not.mpr h3
  have c5 := status_cond_false_of d.status h5
  unfold validateCreateData
  rw [if_neg c1, if_neg h2, if_neg c3, if_neg h4, if_neg (by simp [c5])]

/-- Characterization of the error `validateCreateData` reports, following the
source's check order. -/
theorem validateCreateData_cases (d : CreateTaskDTO) :
    (validateCreateData d = some .INVALID_TITLE ↔
        (d.title = none ∨ (jsTrim (d.title.getD "")).length = 0))
      ∧ (validateCreateData d = some .TITLE_TOO_LONG ↔
        (¬(d.title = none ∨ (jsTrim (d.title.getD "")).length = 0)
          ∧ (d.title.getD "").length > 200))
      ∧ (validateCreateData d = some .INVALID_DESCRIPTION ↔
        (¬(d.title = none ∨ (jsTrim (d.title.getD "")).length = 0)
          ∧ ¬((d.title.getD "").length > 200)
          ∧ (d.description = none ∨ (jsTrim (d.description.getD "")).length = 0)))
      ∧ (validateCreateData d = some .DESCRIPTION_TOO_LONG ↔
        (¬(d.title = none ∨ (jsTrim (d.title.getD "")).length = 0)
          ∧ ¬((d.title.getD "").length > 200)
          ∧ ¬(d.description = none ∨ (jsTrim (d.description.getD "")).length = 0)
          ∧ (d.description.getD "").length > 2000)) := by
  have hmt := missing_cond_iff d.title
  have hmd := missing_cond_iff d.description
  unfold validateCreateData
  split_ifs with h1 h2 h3 h4 h5 <;> simp_all

end TaskFlow

namespace TaskFlow

/-- C3.  For every creation input, `createTask` fails with `INVALID_TITLE`
exactly when the title is missing or its trimmed length is 0; with
`TITLE_TOO_LONG` exactly when the title passes that check and has more than
200 characters; with `INVALID_DESCRIPTION` / `DESCRIPTION_TOO_LONG`
correspondingly (bound 2000), the checks firing in the source's order; and it
succeeds whenever title and description satisfy these rules and the status is
absent or one of the enumerated values. -/
theorem c3_createTask_validation (freshId : String) (now : Nat) (d : CreateTaskDTO)
    (ts : Store) :
    (createTask freshId now d ts = .error .INVALID_TITLE ↔
        (d.title = none ∨ (jsTrim (d.title.getD "")).length = 0))
      ∧ (createTask freshId now d ts = .error .TITLE_TOO_LONG ↔
        (¬(d.title = none ∨ (jsTrim (d.title.getD "")).length = 0)
          ∧ (d.title.getD "").length > 200))
      ∧ (createTask freshId now d ts = .error .INVALID_DESCRIPTION ↔
        (¬(d.title = none ∨ (jsTrim (d.title.getD "")).length = 0)
          ∧ ¬((d.title.getD "").length > 200)
          ∧ (d.description = none ∨ (jsTrim (d.description.getD "")).length = 0)))
      ∧ (createTask freshId now d ts = .error .DESCRIPTION_TOO_LONG ↔
        (¬(d.title = none ∨ (jsTrim (d.title.getD "")).length = 0)
          ∧ ¬((d.title.getD "").length > 200)
          ∧ ¬(d.description = none ∨ (jsTrim (d.description.getD "")).length = 0)
          ∧ (d.description.getD "").length > 2000))
      ∧ ((¬(d.title = none ∨ (jsTrim (d.title.getD "")).length = 0)
          ∧ ¬((d.title.getD "").length > 200)
          ∧ ¬(d.description = none ∨ (jsTrim (d.description.getD "")).length = 0)
          ∧ ¬((d.description.getD "").length > 2000)
          ∧ (d.status = none ∨ isValidStatus (d.status.getD "") = true)) →
        createTask freshId now d ts = .ok (repoCreate freshId now d ts)) := by
  obtain ⟨e1, e2, e3, e4⟩ := validateCreateData_cases d
  refine ⟨?_, ?_, ?_, ?_, ?_⟩
  · rw [createTask_error_iff]; exact e1
  · rw [createTask_error_iff]; exact e2
  · rw [createTask_error_iff]; exact e3
  · rw [createTask_error_iff]; exact e4
  · rintro ⟨h1, h2, h3, h4, h5⟩
    exact createTask_ok freshId now d ts (validateCreateData_none d h1 h2 h3 h4 h5)

set_option maxRecDepth 8000 in
/-- C3, witness at the claim's own example: a 201-character title fails with
`TITLE_TOO_LONG`, while a valid payload succeeds. -/
theorem c3_witness :
    createTask "f" 0 ⟨some (String.mk (List.replicate 201 'a')), some "d", none⟩ []
        = .error .TITLE_TOO_LONG
      ∧ createTask "f" 0 ⟨some "t", some "d", none⟩ []
        = .ok (repoCreate "f" 0 ⟨some "t", some "d", none⟩ []) :=
  ⟨(c3_createTask_validation "f" 0
      ⟨some (String.mk (List.replicate 201 'a')), some "d", none⟩ []).2.1.mpr
      ⟨by decide, by decide⟩,
   (c3_createTask_validation "f" 0 ⟨some "t", some "d", none⟩ []).2.2.2.2
      ⟨by decide, by decide, by decide, by decide, by decide⟩⟩

/-- C4.  For every creation input satisfying the validation rules (title and
description present, non-blank, within bounds; status absent or one of the
enumerated values), `createTask` succeeds and the created task's status is
`pending` when the status field is omitted and the given status when it is
supplied. -/
theorem c4_createTask_status (freshId : String) (now : Nat) (d : CreateTaskDTO) (ts : Store)
    (h1 : ¬(d.title = none ∨ (jsTrim (d.title.getD "")).length = 0))
    (h2 : ¬((d.title.getD "").length > 200))
    (h3 : ¬(d.description = none ∨ (jsTrim (d.description.getD "")).length = 0))
    (h4 : ¬((d.description.getD "").length > 2000))
    (h5 : d.status = none ∨ ∃ s, d.status = some s ∧ isValidStatus s = true) :
    ∃ t ts2, createTask freshId now d ts = .ok (t, ts2)
      ∧ (d.status = none → t.status = "pending")
      ∧ (∀ s, d.status = some s → t.status = s) := by
  have h5s : d.status = none ∨ isValidStatus (d.status.getD "") = true := by
    rcases h5 with h | ⟨s, hs, hv⟩
    · exact Or.inl h
    · right; rw [hs]; exact hv
  refine ⟨Task.create freshId now d, (repoCreate freshId now d ts).2, ?_, ?_, ?_⟩
  · rw [createTask_ok freshId now d ts (validateCreateData_none d h1 h2 h3 h4 h5s)]
    rfl
  · intro h
    simp [Task.create, jsOrElse, h]
  · intro s hs
    rcases h5 with h | ⟨s2, hs2, hv⟩
    · rw [h] at hs; cases hs
    · rw [hs2] at hs
      injection hs with hs
      subst hs
      have hne := isValidStatus_ne_empty hv
      simp [Task.create, hs2, jsOrElse, hne]

/-- C4, witness: a supplied valid status is kept, an omitted one defaults. -/
theorem c4_witness :
    ∃ t ts2, createTask "f" 3 ⟨some "t", some "d", some "done"⟩ [] = .ok (t, ts2)
      ∧ ((⟨some "t", some "d", some "done"⟩ : CreateTaskDTO).status = none
          → t.status = "pending")
      ∧ (∀ s, (⟨some "t", some "d", some "done"⟩ : CreateTaskDTO).status = some s
          → t.status = s) :=
  c4_createTask_status "f" 3 ⟨some "t", some "d", some "done"⟩ []
    (by decide) (by decide) (by decide) (by decide)
    (Or.inr ⟨"done", rfl, by decide⟩)

end TaskFlow

namespace TaskFlow

/-- C5.  For every store state, `getStatistics` returns `total = count`,
`pending`/`inProgress`/`done` the per-status counts, and `completionRate` the
percentage `done / total * 100` rounded half-up to 2 decimal places when
`total > 0` and `0` when `total = 0`; in particular the claim's two concrete
instances. -/
theorem c5_statistics (ts : Store) :
    (getStatistics ts).total = count ts
      ∧ (getStatistics ts).pending = countByStatus ts "pending"
      ∧ (getStatistics ts).inProgress = countByStatus ts "in_progress"
      ∧ (getStatistics ts).done = countByStatus ts "done"
      ∧ (getStatistics ts).completionRate =
          (if 0 < count ts then
            (mathRound ((countByStatus ts "done" : ℚ) / (count ts : ℚ) * 100 * 100) : ℚ) / 100
          else 0)
      ∧ getStatistics
          [⟨"1", "t1", "d1", "pending", 0, 0⟩, ⟨"2", "t2", "d2", "pending", 0, 0⟩,
           ⟨"3", "t3", "d3", "in_progress", 0, 0⟩, ⟨"4", "t4", "d4", "done", 0, 0⟩]
          = ⟨4, 2, 1, 1, 25⟩
      ∧ getStatistics [] = ⟨0, 0, 0, 0, 0⟩ := by
  refine ⟨rfl, rfl, rfl, rfl, ?_, ?_, ?_⟩
  · unfold getStatistics
    by_cases h : 0 < count ts
    · simp only [h, if_true, gt_iff_lt]
    · simp only [h, if_false, gt_iff_lt]
      norm_num [mathRound]
  · simp [getStatistics, count, countByStatus, findByStatus, mathRound]
    norm_num
  · simp [getStatistics, count, countByStatus, findByStatus, mathRound]
    norm_num

/-- C8.  For every task present in the store under an id that passes the id
validation (uuids are never blank) and every valid status `s`,
`updateTask(id, {status: s})` succeeds, sets that task's status to `s`, leaves
its `title`, `description`, `id` and `createdAt` unchanged, and leaves every
other task in the store unchanged. -/
theorem c8_update_status_frame (ts : Store) (id s : String) (now : Nat) (t : Task)
    (hid : validateId id = none)
    (hs : isValidStatus s = true)
    (hfind : findById ts id = some t) :
    ∃ ts2,
      updateTask ts id ⟨none, none, some s⟩ now
          = .ok (Task.update t ⟨none, none, some s⟩ now, ts2)
        ∧ (Task.update t ⟨none, none, some s⟩ now).status = s
        ∧ (Task.update t ⟨none, none, some s⟩ now).title = t.title
        ∧ (Task.update t ⟨none, none, some s⟩ now).description = t.description
        ∧ (Task.update t ⟨none, none, some s⟩ now).id = t.id
        ∧ (Task.update t ⟨none, none, some s⟩ now).createdAt = t.createdAt
        ∧ (∀ u ∈ ts, u.id ≠ id → u ∈ ts2)
        ∧ ts2.length = ts.length := by
  have hne := isValidStatus_ne_empty hs
  have hvu : validateUpdateData ⟨none, none, some s⟩ = none := by
    unfold validateUpdateData
    simp [jsTruthy, hne, hs]
  refine ⟨ts.map fun u => if u.id = id then Task.update t ⟨none, none, some s⟩ now else u,
    ?_, rfl, rfl, rfl, rfl, rfl, ?_, by simp⟩
  · unfold updateTask repoUpdate
    rw [hid, hvu, hfind]
  · intro u hu hneq
    exact List.mem_map.mpr ⟨u, hu, by simp [hneq]⟩

/-- C8, witness at a concrete store and task. -/
theorem c8_witness :
    ∃ ts2,
      updateTask [(⟨"a", "t", "d", "pending", 0, 0⟩ : Task)] "a" ⟨none, none, some "done"⟩ 3
          = .ok (Task.update ⟨"a", "t", "d", "pending", 0, 0⟩ ⟨none, none, some "done"⟩ 3, ts2)
        ∧ (Task.update (⟨"a", "t", "d", "pending", 0, 0⟩ : Task)
            ⟨none, none, some "done"⟩ 3).status = "done"
        ∧ (Task.update (⟨"a", "t", "d", "pending", 0, 0⟩ : Task)
            ⟨none, none, some "done"⟩ 3).title = (⟨"a", "t", "d", "pending", 0, 0⟩ : Task).title
        ∧ (Task.update (⟨"a", "t", "d", "pending", 0, 0⟩ : Task)
            ⟨none, none, some "done"⟩ 3).description
            = (⟨"a", "t", "d", "pending", 0, 0⟩ : Task).description
        ∧ (Task.update (⟨"a", "t", "d", "pending", 0, 0⟩ : Task)
            ⟨none, none, some "done"⟩ 3).id = (⟨"a", "t", "d", "pending", 0, 0⟩ : Task).id
        ∧ (Task.update (⟨"a", "t", "d", "pending", 0, 0⟩ : Task)
            ⟨none, none, some "done"⟩ 3).createdAt
            = (⟨"a", "t", "d", "pending", 0, 0⟩ : Task).createdAt
        ∧ (∀ u ∈ [(⟨"a", "t", "d", "pending", 0, 0⟩ : Task)], u.id ≠ "a" → u ∈ ts2)
        ∧ ts2.length = [(⟨"a", "t", "d", "pending", 0, 0⟩ : Task)].length :=
  c8_update_status_frame [⟨"a", "t", "d", "pending", 0, 0⟩] "a" "done" 3
    ⟨"a", "t", "d", "pending", 0, 0⟩ (by decide) (by decide) (by decide)

/-- C10.  When every stored task's status is one of the three enumerated
values, the statistics satisfy `total = pending + inProgress + done`. -/
theorem c10_total_partition (ts : Store)
    (h : ∀ t ∈ ts, isValidStatus t.status = true) :
    (getStatistics ts).total
      = (getStatistics ts).pending + (getStatistics ts).inProgress
        + (getStatistics ts).done := by
  have key : ∀ (l : List Task), (∀ t ∈ l, isValidStatus t.status = true) →
      l.length = countByStatus l "pending" + countByStatus l "in_progress"
        + countByStatus l "done" := by
    intro l
    induction l with
    | nil => intro _; rfl
    | cons t rest ih =>
      intro hl
      have ht : t.status = "pending" ∨ t.status = "in_progress" ∨ t.status = "done" :=
        (isValidStatus_iff _).1 (hl t (by simp))
      have hr := ih (fun u hu => hl u (by simp [hu]))
      have d1 : ("pending" : String) ≠ "in_progress" := by decide
      have d2 : ("pending" : String) ≠ "done" := by decide
      have d3 : ("in_progress" : String) ≠ "done" := by decide
      simp only [countByStatus, findByStatus] at hr
      rcases ht with h1 | h1 | h1 <;>
        simp [countByStatus, findByStatus, List.filter_cons, h1, d1, d2, d3,
          d1.symm, d2.symm, d3.symm, List.length_cons] <;>
        omega
  exact key ts h

/-- C10, witness at a concrete store. -/
theorem c10_witness :
    (getStatistics
        [⟨"1", "t1", "d1", "pending", 0, 0⟩, ⟨"2", "t2", "d2", "in_progress", 0, 0⟩,
         ⟨"3", "t3", "d3", "done", 0, 0⟩]).total
      = (getStatistics
          [⟨"1", "t1", "d1", "pending", 0, 0⟩, ⟨"2", "t2", "d2", "in_progress", 0, 0⟩,
           ⟨"3", "t3", "d3", "done", 0, 0⟩]).pending
        + (getStatistics
            [⟨"1", "t1", "d1", "pending", 0, 0⟩, ⟨"2", "t2", "d2", "in_progress", 0, 0⟩,
             ⟨"3", "t3", "d3", "done", 0, 0⟩]).inProgress
        + (getStatistics
            [⟨"1", "t1", "d1", "pending", 0, 0⟩, ⟨"2", "t2", "d2", "in_progress", 0, 0⟩,
             ⟨"3", "t3", "d3", "done", 0, 0⟩]).done :=
  c10_total_partition
    [⟨"1", "t1", "d1", "pending", 0, 0⟩, ⟨"2", "t2", "d2", "in_progress", 0, 0⟩,
     ⟨"3", "t3", "d3", "done", 0, 0⟩] (by decide)

end TaskFlow
